import Mathlib

/-
Verification of the snowfin interaction dispatch engine (`snowfin/client.py`).

The embedding below translates the dispatch code of `Client` into plain Lean
functions.  Asynchronous behaviour is made explicit: a handler invocation is a
`HandlerTask` carrying the (abstract) time at which it completes and its
outcome; the defer race of `Client._handle_request` compares that time with the
configured timeout, exactly as `asyncio.wait([task], timeout=...)` reports the
task as done iff it completed before the timeout elapsed.  Exceptions are
`Except.error`, HTTP replies are explicit values, and the background deferred
routine is a pure function from the eventual task outcome to the list of
observable effects (webhook edit calls and error log records).
-/

set_option autoImplicit false

namespace Snowfin

/-- Interaction request types (`RequestType` in `snowfin.enums`; the enums
module is not included under `src/`, so the constructors are modelled from the
spec and from the names used in `client.py`). -/
inductive RequestType
  | PING
  | APPLICATION_COMMAND
  | APPLICATION_COMMAND_AUTOCOMPLETE
  | MESSAGE_COMPONENT
  | MODAL_SUBMIT
deriving DecidableEq

/-- Interaction response types (`ResponseType` in `snowfin.enums`; modelled
from the spec and the names used in `client.py`). -/
inductive ResponseType
  | PONG
  | SEND_MESSAGE
  | DEFER
  | COMPONENT_DEFER
  | EDIT_ORIGINAL_MESSAGE
deriving DecidableEq

/-- Message component subtypes (`ComponentType` in `snowfin.enums`; modelled
from the spec, which uses the subtype only as part of a routing key). -/
inductive ComponentType
  | Button
  | SelectMenu
  | TextInput
deriving DecidableEq

/-- Python values carried by interaction options (a small concrete universe
sufficient for the option-coercion logic of `_handle_request`). -/
inductive Value
  | vInt (n : Int)
  | vStr (s : String)
  | vBool (b : Bool)
deriving DecidableEq

/-- One entry of `data.options` of a command or autocomplete interaction
(`snowfin.models`; modelled from the spec: a named, typed option that may be
flagged `focused`). -/
structure OptionData where
  name : String
  value : Value
  focused : Bool
deriving DecidableEq

/-- Declared python types of handler parameters (a concrete stand-in for the
classes found in `callback.__annotations__`). -/
inductive PyType
  | intT
  | strT
deriving DecidableEq

/-- Reading a run of decimal digits, accumulator style; `none` on the first
non-digit character. -/
def digitsToNat : List Char → Nat → Option Nat
  | [], acc => some acc
  | c :: cs, acc =>
    if c.isDigit then digitsToNat cs (acc * 10 + (c.toNat - 48)) else none

/-- Python `int(s)` on a string: an optional minus sign followed by decimal
digits parses; anything else raises (`none`). -/
def pyIntOfString (s : String) : Option Int :=
  match s.toList with
  | [] => none
  | '-' :: rest =>
    match rest with
    | [] => none
    | _ => (digitsToNat rest 0).map (fun n => -(n : Int))
  | cs => (digitsToNat cs 0).map (fun n => (n : Int))

/-- Calling a declared python type on an option value, as `type(option.value)`
does in `_handle_request`: `none` models the constructor raising. -/
def pyCast : PyType → Value → Option Value
  | PyType.intT, Value.vInt n => some (Value.vInt n)
  | PyType.intT, Value.vBool b => some (Value.vInt (if b then 1 else 0))
  | PyType.intT, Value.vStr s => (pyIntOfString s).map Value.vInt
  | PyType.strT, Value.vInt n => some (Value.vStr (toString n))
  | PyType.strT, Value.vBool b => some (Value.vStr (if b then "True" else "False"))
  | PyType.strT, Value.vStr s => some (Value.vStr s)

/-- A keyword-argument value produced by the option loop of `_handle_request`:
either a successfully coerced value, or — when the coercion raised and was
suppressed — the `Option` object itself, which is what the rebound local
`option` still holds when `kwargs[argument] = option` runs. -/
inductive Arg
  | val (v : Value)
  | optionObj (o : OptionData)
deriving DecidableEq

/-- The kwargs construction of `Client._handle_request` (lines 205-215): walk
the callback annotations in order, skip `self`/`ctx`/`context`, look up the
first supplied option with the same name, attempt the type coercion with
exceptions suppressed, and bind the argument to the coerced value on success
or to the option object itself on failure; a declared parameter with no
matching option contributes nothing. -/
def buildKwargs {Ty : Type} (coerce : Ty → Value → Option Value) :
    List (String × Ty) → List OptionData → List (String × Arg)
  | [], _ => []
  | (argument, ty) :: rest, options =>
    if argument = "self" ∨ argument = "ctx" ∨ argument = "context" then
      buildKwargs coerce rest options
    else
      match options.find? (fun o => decide (o.name = argument)) with
      | some opt =>
        (argument,
          match coerce ty opt.value with
          | some v => Arg.val v
          | none => Arg.optionObj opt) :: buildKwargs coerce rest options
      | none => buildKwargs coerce rest options

/-- A non-deferred `_DiscordResponse` (`snowfin.response`, not included under
`src/`; modelled from the spec: a tagged response with a wire type, content
data and an ephemeral flag). -/
structure DiscordResponse where
  rtype : ResponseType
  content : String
  ephemeral : Bool
deriving DecidableEq

/-- A `DeferredResponse` (`snowfin.response`, not included under `src/`;
modelled from the spec: a Response subtype carrying the in-flight task — here
by id — plus the ephemeral flag, and the mutable wire type slot that
`_handle_request` overwrites at emission time). -/
structure DeferredResponse where
  taskId : Nat
  taskIsTask : Bool
  ephemeral : Bool
  rtype : ResponseType
deriving DecidableEq

/-- A value returned by a user handler, as discriminated by the `isinstance`
checks of `_handle_request`: a `_DiscordResponse` (deferred or not), a raw
sanic `HTTPResponse`, python `None`, or anything else. -/
inductive HandlerResult
  | discord (d : DiscordResponse)
  | deferredR (d : DeferredResponse)
  | http (status : Nat) (body : String)
  | noneV
  | other
deriving DecidableEq

/-- Whether a handler result is a `DeferredResponse` (the
`isinstance(resp, DeferredResponse)` check). -/
def HandlerResult.isDeferredResponse : HandlerResult → Bool
  | HandlerResult.deferredR _ => true
  | _ => false

/-- Bodies of the JSON replies produced by `client.py`. -/
inductive Body
  | errorInvalidSignature
  | errorNotFound
  | pong
  | dict (rtype : ResponseType) (content : String) (ephemeral : Bool)
  | raw (s : String)
deriving DecidableEq

/-- An HTTP reply: status code and body. -/
structure HTTPResp where
  status : Nat
  body : Body
deriving DecidableEq

/-- The parsed inbound interaction (`snowfin.models.Interaction`, not included
under `src/`; modelled from the spec: a request type, the type-specific data
fields that `_handle_request` reads, and the mutable `responded` flag). -/
structure Interaction where
  type : RequestType
  dataName : String
  dataOptions : List OptionData
  dataCustomId : String
  dataComponentType : ComponentType
  responded : Bool
deriving DecidableEq

/-- A registered slash command (`snowfin.decorators.InteractionCommand`, not
included under `src/`; modelled from the spec: a name, the callback keyword
annotations that drive kwargs construction, and the per-option autocomplete
callbacks, identified here by id). -/
structure InteractionCommand (Ty : Type) where
  name : String
  annotations : List (String × Ty)
  autocompleteCallbacks : List (String × Nat)
deriving DecidableEq

/-- A registered component callback (`snowfin.decorators.ComponentCallback`;
modelled from the spec: keyed by `(custom_id, component subtype)`). -/
structure ComponentCallback where
  custom_id : String
  type : ComponentType
  cbId : Nat
deriving DecidableEq

/-- A registered modal callback (`snowfin.decorators.ModalCallback`; modelled
from the spec: keyed by `custom_id`). -/
structure ModalCallback where
  custom_id : String
  cbId : Nat
deriving DecidableEq

/-- The `AutoDefer` policy dataclass of `client.py`. -/
structure AutoDefer where
  enabled : Bool
  timeout : Nat
  ephemeral : Bool
deriving DecidableEq

/-- The registry and policy state of a `Client`. -/
structure Client (Ty : Type) where
  auto_defer : AutoDefer
  commands : List (InteractionCommand Ty)
  modals : List ModalCallback
  components : List ComponentCallback
deriving DecidableEq

/-- `Client.get_command`: first registered command with the given name. -/
def get_command {Ty : Type} (client : Client Ty) (name : String) :
    Option (InteractionCommand Ty) :=
  client.commands.find? (fun c => decide (c.name = name))

/-- Lookup in the `components` dict, keyed by `(custom_id, type)`. -/
def componentsGet (components : List ComponentCallback) (cid : String)
    (t : ComponentType) : Option ComponentCallback :=
  components.find? (fun cb => decide (cb.custom_id = cid ∧ cb.type = t))

/-- Lookup in the `modals` dict, keyed by `custom_id`. -/
def modalsGet (modals : List ModalCallback) (cid : String) :
    Option ModalCallback :=
  modals.find? (fun m => decide (m.custom_id = cid))

/-- Lookup in an `autocomplete_callbacks` dict by option name. -/
def lookupStr (l : List (String × Nat)) (k : String) : Option Nat :=
  (l.find? (fun p => decide (p.1 = k))).map (fun p => p.2)

/-- The resolved callback of `_handle_request` together with the arguments it
would be invoked with (the `partial` built on lines 201-240). -/
inductive ResolvedFunc
  | commandF (name : String) (kwargs : List (String × Arg))
  | autocompleteF (cbId : Nat) (value : Value)
  | componentF (cbId : Nat)
  | modalF (cbId : Nat)
deriving DecidableEq

/-- The handler-resolution phase of `Client._handle_request` (lines 199-240):
the `if`/`elif` chain over `request.ctx.type` that leaves `func` either
`None` or a partial application of the registered callback.  For autocomplete
requests the loop stops at the first option flagged `focused` and only uses a
callback registered for that option name. -/
def resolveFunc {Ty : Type} (coerce : Ty → Value → Option Value)
    (client : Client Ty) (ctx : Interaction) : Option ResolvedFunc :=
  match ctx.type with
  | RequestType.APPLICATION_COMMAND =>
    match get_command client ctx.dataName with
    | some cmd =>
      some (ResolvedFunc.commandF cmd.name
        (buildKwargs coerce cmd.annotations ctx.dataOptions))
    | none => none
  | RequestType.APPLICATION_COMMAND_AUTOCOMPLETE =>
    match get_command client ctx.dataName with
    | some cmd =>
      match ctx.dataOptions.find? (fun o => o.focused) with
      | some opt =>
        match lookupStr cmd.autocompleteCallbacks opt.name with
        | some cbId => some (ResolvedFunc.autocompleteF cbId opt.value)
        | none => none
      | none => none
    | none => none
  | RequestType.MESSAGE_COMPONENT =>
    match componentsGet client.components ctx.dataCustomId ctx.dataComponentType with
    | some cb => some (ResolvedFunc.componentF cb.cbId)
    | none => none
  | RequestType.MODAL_SUBMIT =>
    match modalsGet client.modals ctx.dataCustomId with
    | some m => some (ResolvedFunc.modalF m.cbId)
    | none => none
  | RequestType.PING => none

/-- A running handler invocation: the task created on line 245.  `id`
identifies the task, `time` is the instant its coroutine finishes relative to
the start of the race, and `outcome` is its eventual return value or raised
exception. -/
structure HandlerTask where
  id : Nat
  time : Nat
  outcome : Except String HandlerResult

/-- The observable outcome of the synchronous part of `_handle_request`. -/
structure RequestOutcome where
  httpResponse : Option HTTPResp
  responded : Bool
  invoked : Option ResolvedFunc
  deferredTask : Option Nat
deriving DecidableEq

/-- The response-emission phase of `Client._handle_request` (lines 269-297):
raise if the interaction already responded; set `responded` unless the value
is a `DeferredResponse`; for a `DeferredResponse` overwrite its wire type
according to the route kind and hand its task to the deferred routine; return
the dictified discord response, pass a sanic response through, and return
nothing for anything else. -/
def emitResponse (ctx : Interaction) (f : ResolvedFunc) (resp : HandlerResult) :
    Except String RequestOutcome :=
  if ctx.responded then
    Except.error "Callback already responded"
  else
    let responded : Bool :=
      match resp with
      | HandlerResult.deferredR _ => ctx.responded
      | _ => true
    match resp with
    | HandlerResult.deferredR d =>
      let t : ResponseType :=
        if ctx.type = RequestType.MESSAGE_COMPONENT then
          ResponseType.COMPONENT_DEFER
        else
          ResponseType.DEFER
      Except.ok
        { httpResponse := some { status := 200, body := Body.dict t "" d.ephemeral }
          responded := responded
          invoked := some f
          deferredTask := some d.taskId }
    | HandlerResult.discord dr =>
      Except.ok
        { httpResponse :=
            some { status := 200, body := Body.dict dr.rtype dr.content dr.ephemeral }
          responded := responded
          invoked := some f
          deferredTask := none }
    | HandlerResult.http s b =>
      Except.ok
        { httpResponse := some { status := s, body := Body.raw b }
          responded := responded
          invoked := some f
          deferredTask := none }
    | HandlerResult.noneV =>
      Except.ok
        { httpResponse := none, responded := responded
          invoked := some f, deferredTask := none }
    | HandlerResult.other =>
      Except.ok
        { httpResponse := none, responded := responded
          invoked := some f, deferredTask := none }

/-- `Client._handle_request` (lines 192-297).  `behavior` gives the task that
invoking the resolved callback creates (line 245).  When no callback resolved,
reply 404.  When the auto-defer policy is enabled and the route is a Command
or Component, race the task against the timeout: done iff it finishes strictly
before the timeout elapses, otherwise synthesize a `DeferredResponse` around
the still-running task with the policy ephemeral flag.  Otherwise await the
task unconditionally. -/
def handleRequest {Ty : Type} (coerce : Ty → Value → Option Value)
    (client : Client Ty) (behavior : ResolvedFunc → HandlerTask)
    (ctx : Interaction) : Except String RequestOutcome :=
  match resolveFunc coerce client ctx with
  | none =>
    Except.ok
      { httpResponse := some { status := 404, body := Body.errorNotFound }
        responded := ctx.responded
        invoked := none
        deferredTask := none }
  | some f =>
    let task := behavior f
    if client.auto_defer.enabled = true ∧
        (ctx.type = RequestType.APPLICATION_COMMAND ∨
          ctx.type = RequestType.MESSAGE_COMPONENT) then
      if task.time < client.auto_defer.timeout then
        match task.outcome with
        | Except.error e => Except.error e
        | Except.ok r => emitResponse ctx f r
      else
        emitResponse ctx f
          (HandlerResult.deferredR
            { taskId := task.id, taskIsTask := true
              ephemeral := client.auto_defer.ephemeral
              rtype := ResponseType.DEFER })
    else
      match task.outcome with
      | Except.error e => Except.error e
      | Except.ok r => emitResponse ctx f r

/-- Reading `response.type` on the backgrounded result, as
`_handle_deferred_response` does: an attribute error for values that carry no
wire type. -/
def respTypeOf : HandlerResult → Except String ResponseType
  | HandlerResult.discord d => Except.ok d.rtype
  | HandlerResult.deferredR d => Except.ok d.rtype
  | HandlerResult.http _ _ => Except.error "AttributeError: type"
  | HandlerResult.noneV => Except.error "AttributeError: type"
  | HandlerResult.other => Except.error "AttributeError: type"

/-- Observable effects of the backgrounded deferred routine. -/
inductive RoutineEffect
  | followup (r : HandlerResult)
  | logError (msg : String)
deriving DecidableEq

/-- `Client._handle_deferred_response` (lines 182-190): a falsy (`None`)
result sends nothing; a result whose type is `SEND_MESSAGE` or
`EDIT_ORIGINAL_MESSAGE` is delivered through `http.edit_original_message`
(`delivery` models that call raising or succeeding); any other type raises
`Exception("Invalid response type")`. -/
def handle_deferred_response (delivery : HandlerResult → Except String Unit)
    (response : HandlerResult) : Except String (List RoutineEffect) :=
  match response with
  | HandlerResult.noneV => Except.ok []
  | r =>
    match respTypeOf r with
    | Except.error e => Except.error e
    | Except.ok t =>
      if t = ResponseType.SEND_MESSAGE ∨ t = ResponseType.EDIT_ORIGINAL_MESSAGE then
        match delivery r with
        | Except.ok _ => Except.ok [RoutineEffect.followup r]
        | Except.error e => Except.error e
      else
        Except.error "Invalid response type"

/-- The `wrapper` coroutine of `Client._handle_deferred_routine` (lines
169-180): await the routine, hand its result to
`_handle_deferred_response`, and turn any exception from either step into a
logged error record. -/
def deferred_wrapper (delivery : HandlerResult → Except String Unit)
    (routineResult : Except String HandlerResult) : List RoutineEffect :=
  match routineResult with
  | Except.error e => [RoutineEffect.logError e]
  | Except.ok r =>
    match handle_deferred_response delivery r with
    | Except.ok effs => effs
    | Except.error e => [RoutineEffect.logError e]

/-- The synchronous dispatch followed by the backgrounded deferred routine, if
one was started: `eventual` maps a backgrounded task id to its eventual
outcome, `delivery` models the webhook edit call. -/
def fullFlow {Ty : Type} (coerce : Ty → Value → Option Value)
    (client : Client Ty) (behavior : ResolvedFunc → HandlerTask)
    (eventual : Nat → Except String HandlerResult)
    (delivery : HandlerResult → Except String Unit)
    (ctx : Interaction) : Except String (RequestOutcome × List RoutineEffect) :=
  match handleRequest coerce client behavior ctx with
  | Except.error e => Except.error e
  | Except.ok out =>
    Except.ok (out,
      match out.deferredTask with
      | none => []
      | some tid => deferred_wrapper delivery (eventual tid))

/-- A raw inbound request as seen by the middleware chain: the two signature
headers and the body bytes. -/
structure RawRequest where
  signature : String
  timestamp : String
  body : String

deriving instance DecidableEq for Except

/-- The observable trace of one request through the middleware chain. -/
structure PipelineTrace where
  response : Except String (Option HTTPResp)
  classifierReached : Bool
  dispatchReached : Bool
deriving DecidableEq

/-- The sanic middleware chain of `client.py` in registration order:
`verify_signature` (lines 114-123) checks the detached signature over
`timestamp || body` and short-circuits with the fixed 403 rejection on
mismatch; `parse_request` builds the typed Interaction (the classifier);
`ack_request` answers PINGs with the fixed pong; `handle_request` runs the
dispatch engine.  `verify` abstracts the Ed25519 check of
`verify_key.verify(f-string(timestamp, body).encode(), signature)`. -/
def processRequest {Ty : Type} (verify : String → String → Bool)
    (parse : String → Interaction) (coerce : Ty → Value → Option Value)
    (client : Client Ty) (behavior : ResolvedFunc → HandlerTask)
    (raw : RawRequest) : PipelineTrace :=
  if verify (raw.timestamp ++ raw.body) raw.signature then
    let ctx := parse raw.body
    if ctx.type = RequestType.PING then
      { response := Except.ok (some { status := 200, body := Body.pong })
        classifierReached := true
        dispatchReached := false }
    else
      { response := (handleRequest coerce client behavior ctx).map
          (fun out => out.httpResponse)
        classifierReached := true
        dispatchReached := true }
  else
    { response := Except.ok (some { status := 403, body := Body.errorInvalidSignature })
      classifierReached := false
      dispatchReached := false }

/-- `Client.add_interaction_command` (lines 351-358): refuse a command whose
name is already registered, else append it. -/
def add_interaction_command {Ty : Type} (c : Client Ty)
    (command : InteractionCommand Ty) : Except String (Client Ty) :=
  if (c.commands.map (fun x => x.name)).contains command.name then
    Except.error ("/" ++ command.name ++ " already exists")
  else
    Except.ok { c with commands := c.commands ++ [command] }

/-- `Client.add_component_callback` (lines 371-378): refuse a callback whose
`(custom_id, type)` key is already present, else insert it. -/
def add_component_callback {Ty : Type} (c : Client Ty)
    (callback : ComponentCallback) : Except String (Client Ty) :=
  if (componentsGet c.components callback.custom_id callback.type).isSome then
    Except.error ("component with custom_id " ++ callback.custom_id ++ " already exists")
  else
    Except.ok { c with components := c.components ++ [callback] }

/-- `Client.add_modal_callback` (lines 380-387): refuse a callback whose
`custom_id` is already present, else insert it. -/
def add_modal_callback {Ty : Type} (c : Client Ty)
    (callback : ModalCallback) : Except String (Client Ty) :=
  if (modalsGet c.modals callback.custom_id).isSome then
    Except.error ("modal with custom_id " ++ callback.custom_id ++ " already exists")
  else
    Except.ok { c with modals := c.modals ++ [callback] }

/-! Concrete fixtures used to evaluate the model on concrete inputs. -/

/-- A concrete client: auto-defer enabled with timeout 2 and ephemeral defers,
one command `ping` with an `int` parameter `count` and an autocomplete
callback for option `q`, one modal `m1`, one Button component `btn1`. -/
def clientW : Client PyType :=
  { auto_defer := { enabled := true, timeout := 2, ephemeral := true }
    commands := [{ name := "ping"
                   annotations := [("ctx", PyType.strT), ("count", PyType.intT)]
                   autocompleteCallbacks := [("q", 7)] }]
    modals := [{ custom_id := "m1", cbId := 1 }]
    components := [{ custom_id := "btn1", type := ComponentType.Button, cbId := 2 }] }

/-- A concrete command interaction for `/ping` with option `count = "5"`. -/
def ctxCmdW : Interaction :=
  { type := RequestType.APPLICATION_COMMAND
    dataName := "ping"
    dataOptions := [{ name := "count", value := Value.vStr "5", focused := false }]
    dataCustomId := ""
    dataComponentType := ComponentType.Button
    responded := false }

/-- The callback that `clientW` resolves for `ctxCmdW`. -/
def fW : ResolvedFunc :=
  ResolvedFunc.commandF "ping" [("count", Arg.val (Value.vInt 5))]

/-- A concrete handler result: a SEND_MESSAGE response saying `pong`. -/
def pongW : HandlerResult :=
  HandlerResult.discord
    { rtype := ResponseType.SEND_MESSAGE, content := "pong", ephemeral := false }

/-- A handler whose task (id 9) completes at time 5, past the timeout 2. -/
def behaviorSlowW : ResolvedFunc → HandlerTask :=
  fun _ => { id := 9, time := 5, outcome := Except.ok pongW }

/-- A handler whose task (id 9) completes immediately. -/
def behaviorFastW : ResolvedFunc → HandlerTask :=
  fun _ => { id := 9, time := 0, outcome := Except.ok pongW }

/-- Every backgrounded task eventually returns `pongW`. -/
def eventualW : Nat → Except String HandlerResult := fun _ => Except.ok pongW

/-- A webhook edit call that always succeeds. -/
def deliveryW : HandlerResult → Except String Unit := fun _ => Except.ok ()

/-- A concrete raw inbound request. -/
def rawW : RawRequest := { signature := "sig", timestamp := "ts", body := "body" }

/-- A parser that yields the concrete command interaction. -/
def parseW : String → Interaction := fun _ => ctxCmdW

/-- A concrete component interaction for `btn1`. -/
def ctxComponentW : Interaction :=
  { type := RequestType.MESSAGE_COMPONENT
    dataName := ""
    dataOptions := []
    dataCustomId := "btn1"
    dataComponentType := ComponentType.Button
    responded := false }

/-- A concrete `DeferredResponse` whose stored wire type is stale (`PONG`). -/
def deferW : DeferredResponse :=
  { taskId := 9, taskIsTask := true, ephemeral := true, rtype := ResponseType.PONG }

/-- A handler result whose wire type is not a valid follow-up kind. -/
def badFollowupW : HandlerResult :=
  HandlerResult.discord
    { rtype := ResponseType.DEFER, content := "", ephemeral := false }

/-- A webhook edit call that always raises. -/
def deliveryFailW : HandlerResult → Except String Unit :=
  fun _ => Except.error "network"

/-- A concrete command-name-miss interaction. -/
def ctxMissW : Interaction :=
  { type := RequestType.APPLICATION_COMMAND
    dataName := "nope"
    dataOptions := []
    dataCustomId := ""
    dataComponentType := ComponentType.Button
    responded := false }

/-! Helper lemmas shared by the claim theorems. -/

/-- A backgrounded result of a valid follow-up kind is handed to exactly one
webhook edit call by `_handle_deferred_response`. -/
theorem followup_delivered_of_valid (delivery : HandlerResult → Except String Unit)
    (r : HandlerResult) (t : ResponseType)
    (hty : respTypeOf r = Except.ok t)
    (hkind : t = ResponseType.SEND_MESSAGE ∨ t = ResponseType.EDIT_ORIGINAL_MESSAGE)
    (hdel : delivery r = Except.ok ()) :
    handle_deferred_response delivery r = Except.ok [RoutineEffect.followup r] := by
  cases r with
  | discord d =>
    simp [respTypeOf] at hty
    subst hty
    simp [handle_deferred_response, respTypeOf, hkind, hdel]
  | deferredR d =>
    simp [respTypeOf] at hty
    subst hty
    simp [handle_deferred_response, respTypeOf, hkind, hdel]
  | http s b => simp [respTypeOf] at hty
  | noneV => simp [respTypeOf] at hty
  | other => simp [respTypeOf] at hty

/-- A backgrounded result of an invalid follow-up kind makes
`_handle_deferred_response` raise the invalid-type error. -/
theorem invalid_followup_raises (delivery : HandlerResult → Except String Unit)
    (r : HandlerResult) (t : ResponseType)
    (hty : respTypeOf r = Except.ok t)
    (hkind : ¬ (t = ResponseType.SEND_MESSAGE ∨ t = ResponseType.EDIT_ORIGINAL_MESSAGE)) :
    handle_deferred_response delivery r = Except.error "Invalid response type" := by
  cases r with
  | discord d =>
    simp [respTypeOf] at hty
    subst hty
    simp [handle_deferred_response, respTypeOf, hkind]
  | deferredR d =>
    simp [respTypeOf] at hty
    subst hty
    simp [handle_deferred_response, respTypeOf, hkind]
  | http s b => simp [respTypeOf] at hty
  | noneV => simp [respTypeOf] at hty
  | other => simp [respTypeOf] at hty

/-- Searching an appended list when the front part has no match. -/
theorem find?_append_none {α : Type} (p : α → Bool) (l1 l2 : List α)
    (h : l1.find? p = none) : (l1 ++ l2).find? p = l2.find? p := by
  induction l1 with
  | nil => simp
  | cons a t ih =>
    cases hpa : p a with
    | true =>
      rw [List.find?_cons_of_pos _ hpa] at h
      exact absurd h (by simp)
    | false =>
      rw [List.find?_cons_of_neg _ (by simp [hpa])] at h
      rw [List.cons_append, List.find?_cons_of_neg _ (by simp [hpa])]
      exact ih h

/-- The kwargs loop as a filterMap over the declared annotations. -/
theorem buildKwargs_eq_filterMap {Ty : Type} (coerce : Ty → Value → Option Value)
    (anns : List (String × Ty)) (opts : List OptionData) :
    buildKwargs coerce anns opts = anns.filterMap (fun p =>
      if p.1 = "self" ∨ p.1 = "ctx" ∨ p.1 = "context" then none
      else (opts.find? (fun o => decide (o.name = p.1))).map (fun opt =>
        (p.1, match coerce p.2 opt.value with
              | some v => Arg.val v
              | none => Arg.optionObj opt))) := by
  induction anns with
  | nil => rfl
  | cons hd rest ih =>
    obtain ⟨a', t'⟩ := hd
    by_cases hskip : a' = "self" ∨ a' = "ctx" ∨ a' = "context"
    · simp only [buildKwargs, List.filterMap_cons]
      rw [if_pos hskip, if_pos hskip]
      exact ih
    · simp only [buildKwargs, List.filterMap_cons]
      rw [if_neg hskip, if_neg hskip]
      cases hfo : opts.find? (fun o => decide (o.name = a')) with
      | none => simpa using ih
      | some opt => simpa using ih

/-! Claim theorems. -/

/-- C1: with auto-defer enabled and a resolved Command or Component handler,
the engine races the handler task against the configured timeout: completion
strictly before the timeout makes the handler's own response the primary
response; timeout expiry makes the primary response a synthesized
DeferredResponse over the still-running task carrying the policy ephemeral
flag, and the task's eventual valid result is then delivered via exactly one
follow-up webhook edit call; for every other route kind, or with auto-defer
disabled, the handler is awaited unconditionally, its result used whatever
its completion time. -/
theorem C1_defer_race {Ty : Type} (coerce : Ty → Value → Option Value)
    (client : Client Ty) (behavior : ResolvedFunc → HandlerTask)
    (eventual : Nat → Except String HandlerResult)
    (delivery : HandlerResult → Except String Unit)
    (ctx : Interaction) (f : ResolvedFunc)
    (hres : resolveFunc coerce client ctx = some f) :
    ((client.auto_defer.enabled = true ∧
        (ctx.type = RequestType.APPLICATION_COMMAND ∨
          ctx.type = RequestType.MESSAGE_COMPONENT)) →
      ((behavior f).time < client.auto_defer.timeout →
        ∀ r, (behavior f).outcome = Except.ok r →
          handleRequest coerce client behavior ctx = emitResponse ctx f r) ∧
      (¬ (behavior f).time < client.auto_defer.timeout →
        ctx.responded = false →
        handleRequest coerce client behavior ctx =
          Except.ok
            { httpResponse := some
                { status := 200
                  body := Body.dict
                    (if ctx.type = RequestType.MESSAGE_COMPONENT then
                      ResponseType.COMPONENT_DEFER
                     else ResponseType.DEFER) "" client.auto_defer.ephemeral }
              responded := false
              invoked := some f
              deferredTask := some (behavior f).id } ∧
        (∀ r t, eventual (behavior f).id = Except.ok r →
          respTypeOf r = Except.ok t →
          (t = ResponseType.SEND_MESSAGE ∨ t = ResponseType.EDIT_ORIGINAL_MESSAGE) →
          delivery r = Except.ok () →
          fullFlow coerce client behavior eventual delivery ctx =
            Except.ok
              ({ httpResponse := some
                   { status := 200
                     body := Body.dict
                       (if ctx.type = RequestType.MESSAGE_COMPONENT then
                         ResponseType.COMPONENT_DEFER
                        else ResponseType.DEFER) "" client.auto_defer.ephemeral }
                 responded := false
                 invoked := some f
                 deferredTask := some (behavior f).id },
               [RoutineEffect.followup r])))) ∧
    (¬ (client.auto_defer.enabled = true ∧
        (ctx.type = RequestType.APPLICATION_COMMAND ∨
          ctx.type = RequestType.MESSAGE_COMPONENT)) →
      ∀ r, (behavior f).outcome = Except.ok r →
        handleRequest coerce client behavior ctx = emitResponse ctx f r) := by
  constructor
  · intro hcond
    constructor
    · intro htime r hout
      simp [handleRequest, hres, hcond, htime, hout]
    · intro htime hresp
      have hmain : handleRequest coerce client behavior ctx =
          Except.ok
            { httpResponse := some
                { status := 200
                  body := Body.dict
                    (if ctx.type = RequestType.MESSAGE_COMPONENT then
                      ResponseType.COMPONENT_DEFER
                     else ResponseType.DEFER) "" client.auto_defer.ephemeral }
              responded := false
              invoked := some f
              deferredTask := some (behavior f).id } := by
        simp [handleRequest, hres, hcond, htime, emitResponse, hresp]
      refine ⟨hmain, ?_⟩
      intro r t hev hty hkind hdel
      have hfu := followup_delivered_of_valid delivery r t hty hkind hdel
      simp [fullFlow, hmain, deferred_wrapper, hev, hfu]
  · intro hcond r hout
    simp [handleRequest, hres, hcond, hout]

/-- Witness for C1: the slow concrete `/ping` handler (finishes at time 5,
timeout 2) yields the ephemeral DEFER primary response and exactly one
follow-up carrying its eventual `pong` message. -/
theorem C1_witness :
    fullFlow pyCast clientW behaviorSlowW eventualW deliveryW ctxCmdW =
      Except.ok
        ({ httpResponse := some
             { status := 200, body := Body.dict ResponseType.DEFER "" true }
           responded := false
           invoked := some fW
           deferredTask := some 9 },
         [RoutineEffect.followup pongW]) := by
  have h := C1_defer_race pyCast clientW behaviorSlowW eventualW deliveryW ctxCmdW fW
    (by decide)
  have h2 := ((h.1 (by decide)).2 (by decide) rfl).2 pongW ResponseType.SEND_MESSAGE
    rfl rfl (Or.inl rfl) rfl
  simpa using h2

/-- C6: for a completed background task of a deferred flow, a `None` result
makes no follow-up call; a result whose response kind is SEND_MESSAGE or
EDIT_ORIGINAL_MESSAGE is delivered — exactly that result, via exactly one
webhook edit call; any other response kind becomes the reported invalid-type
error, never silently dropped and never delivered. -/
theorem C6_followup_contract (delivery : HandlerResult → Except String Unit)
    (r : HandlerResult) (t : ResponseType) :
    (deferred_wrapper delivery (Except.ok HandlerResult.noneV) = []) ∧
    (respTypeOf r = Except.ok t →
      (t = ResponseType.SEND_MESSAGE ∨ t = ResponseType.EDIT_ORIGINAL_MESSAGE) →
      delivery r = Except.ok () →
      deferred_wrapper delivery (Except.ok r) = [RoutineEffect.followup r]) ∧
    (respTypeOf r = Except.ok t →
      ¬ (t = ResponseType.SEND_MESSAGE ∨ t = ResponseType.EDIT_ORIGINAL_MESSAGE) →
      deferred_wrapper delivery (Except.ok r) =
        [RoutineEffect.logError "Invalid response type"] ∧
      ∀ x, RoutineEffect.followup x ∉ deferred_wrapper delivery (Except.ok r)) := by
  refine ⟨?_, ?_, ?_⟩
  · simp [deferred_wrapper, handle_deferred_response]
  · intro hty hkind hdel
    simp [deferred_wrapper, followup_delivered_of_valid delivery r t hty hkind hdel]
  · intro hty hkind
    have hinv := invalid_followup_raises delivery r t hty hkind
    constructor
    · simp [deferred_wrapper, hinv]
    · intro x
      simp [deferred_wrapper, hinv]

/-- Witness for C6: `None` sends nothing, the concrete `pong` message is
delivered exactly once, and a DEFER-typed result is reported as the logged
invalid-type error. -/
theorem C6_witness :
    deferred_wrapper deliveryW (Except.ok HandlerResult.noneV) = [] ∧
    deferred_wrapper deliveryW (Except.ok pongW) = [RoutineEffect.followup pongW] ∧
    deferred_wrapper deliveryW (Except.ok badFollowupW) =
      [RoutineEffect.logError "Invalid response type"] := by
  refine ⟨(C6_followup_contract deliveryW pongW ResponseType.SEND_MESSAGE).1, ?_, ?_⟩
  · exact (C6_followup_contract deliveryW pongW ResponseType.SEND_MESSAGE).2.1
      rfl (Or.inl rfl) rfl
  · exact ((C6_followup_contract deliveryW badFollowupW ResponseType.DEFER).2.2
      rfl (by decide)).1

/-- C7: an exception raised by a backgrounded deferred task — in the awaited
handler or during the follow-up stage — is caught at the wrapper boundary and
turned into exactly one logged error record; the wrapper always returns a
plain effect list with no follow-up in that case, so nothing propagates. -/
theorem C7_background_errors_logged (delivery : HandlerResult → Except String Unit)
    (routineResult : Except String HandlerResult) :
    (∀ e, routineResult = Except.error e →
      deferred_wrapper delivery routineResult = [RoutineEffect.logError e]) ∧
    (∀ r e, routineResult = Except.ok r →
      handle_deferred_response delivery r = Except.error e →
      deferred_wrapper delivery routineResult = [RoutineEffect.logError e]) := by
  constructor
  · intro e he
    simp [deferred_wrapper, he]
  · intro r e hr herr
    simp [deferred_wrapper, hr, herr]

/-- Witness for C7: a raising handler is logged, and a delivery failure during
the follow-up call is logged, neither producing a follow-up effect. -/
theorem C7_witness :
    deferred_wrapper deliveryW (Except.error "boom") = [RoutineEffect.logError "boom"] ∧
    deferred_wrapper deliveryFailW (Except.ok pongW) =
      [RoutineEffect.logError "network"] := by
  constructor
  · exact (C7_background_errors_logged deliveryW (Except.error "boom")).1 "boom" rfl
  · exact (C7_background_errors_logged deliveryFailW (Except.ok pongW)).2 pongW
      "network" rfl (by decide)

/-- C3: any inbound request whose detached signature does not verify over the
byte concatenation `timestamp || body` under the configured key is answered
with the fixed body `error: invalid signature` at status 403, and neither the
request classifier nor any handler-dispatch stage runs for it. -/
theorem C3_bad_signature_short_circuits {Ty : Type}
    (verify : String → String → Bool) (parse : String → Interaction)
    (coerce : Ty → Value → Option Value) (client : Client Ty)
    (behavior : ResolvedFunc → HandlerTask) (raw : RawRequest)
    (h : verify (raw.timestamp ++ raw.body) raw.signature = false) :
    processRequest verify parse coerce client behavior raw =
      { response := Except.ok (some { status := 403, body := Body.errorInvalidSignature })
        classifierReached := false
        dispatchReached := false } := by
  simp [processRequest, h]

/-- Witness for C3 at a concrete request and a verifier that rejects it. -/
theorem C3_witness :
    processRequest (fun _ _ => false) parseW pyCast clientW behaviorFastW rawW =
      { response := Except.ok (some { status := 403, body := Body.errorInvalidSignature })
        classifierReached := false
        dispatchReached := false } :=
  C3_bad_signature_short_circuits (fun _ _ => false) parseW pyCast clientW
    behaviorFastW rawW rfl

/-- C5: a `DeferredResponse` emitted as a primary response has its wire type
substituted at emission time — `COMPONENT_DEFER` exactly for MessageComponent
interactions and `DEFER` for every other route kind — regardless of the wire
type the `DeferredResponse` carried in. -/
theorem C5_defer_type_substitution (ctx : Interaction) (f : ResolvedFunc)
    (d : DeferredResponse) (h : ctx.responded = false) :
    emitResponse ctx f (HandlerResult.deferredR d) =
      Except.ok
        { httpResponse := some
            { status := 200
              body := Body.dict
                (if ctx.type = RequestType.MESSAGE_COMPONENT then
                  ResponseType.COMPONENT_DEFER
                 else ResponseType.DEFER) "" d.ephemeral }
          responded := false
          invoked := some f
          deferredTask := some d.taskId } := by
  simp [emitResponse, h]

/-- Witness for C5 on a component interaction and a `DeferredResponse` whose
stored wire type is stale. -/
theorem C5_witness :
    emitResponse ctxComponentW (ResolvedFunc.componentF 2)
        (HandlerResult.deferredR deferW) =
      Except.ok
        { httpResponse := some
            { status := 200, body := Body.dict ResponseType.COMPONENT_DEFER "" true }
          responded := false
          invoked := some (ResolvedFunc.componentF 2)
          deferredTask := some 9 } := by
  have h := C5_defer_type_substitution ctxComponentW (ResolvedFunc.componentF 2) deferW rfl
  simpa using h

/-- C10: a resolved handler returning a value that is neither a
`_DiscordResponse` nor an `HTTPResponse` leaves the emission stage with the
interaction marked responded and no HTTP reply of any shape. -/
theorem C10_non_response_no_reply (ctx : Interaction) (f : ResolvedFunc)
    (resp : HandlerResult) (h : ctx.responded = false)
    (hr : resp = HandlerResult.noneV ∨ resp = HandlerResult.other) :
    emitResponse ctx f resp =
      Except.ok
        { httpResponse := none, responded := true
          invoked := some f, deferredTask := none } := by
  rcases hr with hr | hr <;> subst hr <;> simp [emitResponse, h]

/-- Witness for C10 on a handler that returned python `None`. -/
theorem C10_witness :
    emitResponse ctxCmdW fW HandlerResult.noneV =
      Except.ok
        { httpResponse := none, responded := true
          invoked := some fW, deferredTask := none } :=
  C10_non_response_no_reply ctxCmdW fW HandlerResult.noneV rfl (Or.inl rfl)

/-- C2 counterexample: on a deferred primary response the `responded` flag
never transitions to true.  The concrete slow `/ping` dispatch emits a primary
DEFER response while the interaction entered with `responded = false` and the
outcome still carries `responded = false` — so the flag does not transition
false→true before the primary response is emitted, refuting the claim that it
does so exactly once for every interaction. -/
theorem C2_counterexample :
    ctxCmdW.responded = false ∧
    handleRequest pyCast clientW behaviorSlowW ctxCmdW =
      Except.ok
        { httpResponse := some { status := 200, body := Body.dict ResponseType.DEFER "" true }
          responded := false
          invoked := some fW
          deferredTask := some 9 } := by
  constructor
  · rfl
  · decide

/-- C2 amended: a second attempt to emit a primary response after `responded`
is already true raises the already-responded error; otherwise the emission
stage sets `responded` to true, sequenced before the response leaves it,
exactly when the emitted value is not a `DeferredResponse` — for a
`DeferredResponse` primary the flag stays false. -/
theorem C2_responded_transition (ctx : Interaction) (f : ResolvedFunc)
    (resp : HandlerResult) :
    (ctx.responded = true →
      emitResponse ctx f resp = Except.error "Callback already responded") ∧
    (ctx.responded = false →
      (emitResponse ctx f resp).map (fun out => out.responded) =
        Except.ok (!resp.isDeferredResponse)) := by
  constructor
  · intro h
    simp [emitResponse, h]
  · intro h
    cases resp <;>
      simp [emitResponse, h, HandlerResult.isDeferredResponse, Except.map]

/-- Witness for C2 at a concrete non-deferred emission. -/
theorem C2_witness :
    (emitResponse ctxCmdW fW pongW).map (fun out => out.responded) =
      Except.ok (!HandlerResult.isDeferredResponse pongW) :=
  (C2_responded_transition ctxCmdW fW pongW).2 rfl

/-- C8: a route-key miss — a Command or Autocomplete name with no registered
command, a Component `(custom_id, subtype)` key or a Modal `custom_id` with no
registered callback, or an Autocomplete request with no option flagged
focused — resolves no handler, and an unresolved interaction is answered with
the not-found body `error: command not found` at status 404, with no handler
invoked and no follow-up call ever made. -/
theorem C8_not_found {Ty : Type} (coerce : Ty → Value → Option Value)
    (client : Client Ty) (behavior : ResolvedFunc → HandlerTask)
    (eventual : Nat → Except String HandlerResult)
    (delivery : HandlerResult → Except String Unit) (ctx : Interaction) :
    ((ctx.type = RequestType.APPLICATION_COMMAND →
        get_command client ctx.dataName = none →
        resolveFunc coerce client ctx = none) ∧
     (ctx.type = RequestType.APPLICATION_COMMAND_AUTOCOMPLETE →
        get_command client ctx.dataName = none →
        resolveFunc coerce client ctx = none) ∧
     (ctx.type = RequestType.APPLICATION_COMMAND_AUTOCOMPLETE →
        ctx.dataOptions.find? (fun o => o.focused) = none →
        resolveFunc coerce client ctx = none) ∧
     (ctx.type = RequestType.MESSAGE_COMPONENT →
        componentsGet client.components ctx.dataCustomId ctx.dataComponentType = none →
        resolveFunc coerce client ctx = none) ∧
     (ctx.type = RequestType.MODAL_SUBMIT →
        modalsGet client.modals ctx.dataCustomId = none →
        resolveFunc coerce client ctx = none)) ∧
    (resolveFunc coerce client ctx = none →
      fullFlow coerce client behavior eventual delivery ctx =
        Except.ok
          ({ httpResponse := some { status := 404, body := Body.errorNotFound }
             responded := ctx.responded
             invoked := none
             deferredTask := none }, [])) := by
  refine ⟨⟨?_, ?_, ?_, ?_, ?_⟩, ?_⟩
  · intro h1 h2
    simp [resolveFunc, h1, h2]
  · intro h1 h2
    simp [resolveFunc, h1, h2]
  · intro h1 h2
    cases hgc : get_command client ctx.dataName <;> simp [resolveFunc, h1, h2, hgc]
  · intro h1 h2
    simp [resolveFunc, h1, h2]
  · intro h1 h2
    simp [resolveFunc, h1, h2]
  · intro h
    simp [fullFlow, handleRequest, h]

/-- Witness for C8: a command interaction whose name has no registered handler
gets the 404 reply, no invocation and no follow-up effects. -/
theorem C8_witness :
    fullFlow pyCast clientW behaviorFastW eventualW deliveryW ctxMissW =
      Except.ok
        ({ httpResponse := some { status := 404, body := Body.errorNotFound }
           responded := false
           invoked := none
           deferredTask := none }, []) := by
  have h := (C8_not_found pyCast clientW behaviorFastW eventualW deliveryW ctxMissW).2
    (by decide)
  simpa using h

/-- C9: registering a command, component, or modal handler under a key already
present in its mapping raises the duplicate-key error, and the registry keeps
only the first registration for that key. -/
theorem C9_duplicate_registration {Ty : Type} :
    (∀ (c c' : Client Ty) (cmd1 cmd2 : InteractionCommand Ty),
      add_interaction_command c cmd1 = Except.ok c' →
      cmd2.name = cmd1.name →
      add_interaction_command c' cmd2 =
        Except.error ("/" ++ cmd2.name ++ " already exists") ∧
      get_command c' cmd2.name = some cmd1) ∧
    (∀ (c c' : Client Ty) (cb1 cb2 : ComponentCallback),
      add_component_callback c cb1 = Except.ok c' →
      cb2.custom_id = cb1.custom_id →
      cb2.type = cb1.type →
      add_component_callback c' cb2 =
        Except.error ("component with custom_id " ++ cb2.custom_id ++ " already exists") ∧
      componentsGet c'.components cb2.custom_id cb2.type = some cb1) ∧
    (∀ (c c' : Client Ty) (m1 m2 : ModalCallback),
      add_modal_callback c m1 = Except.ok c' →
      m2.custom_id = m1.custom_id →
      add_modal_callback c' m2 =
        Except.error ("modal with custom_id " ++ m2.custom_id ++ " already exists") ∧
      modalsGet c'.modals m2.custom_id = some m1) := by
  refine ⟨?_, ?_, ?_⟩
  · intro c c' cmd1 cmd2 hadd hname
    by_cases hdup : ((c.commands.map (fun x => x.name)).contains cmd1.name) = true
    · simp only [add_interaction_command] at hadd
      rw [if_pos hdup] at hadd
      exact Except.noConfusion hadd
    · simp only [add_interaction_command] at hadd
      rw [if_neg hdup] at hadd
      injection hadd with hc'
      subst hc'
      have hfind : c.commands.find? (fun x => decide (x.name = cmd1.name)) = none := by
        rw [List.find?_eq_none]
        intro x hx hpx
        simp at hpx
        simp at hdup
        exact hdup x hx hpx
      constructor
      · simp only [add_interaction_command]
        rw [if_pos (by simp [hname])]
      · simp only [get_command, hname]
        rw [find?_append_none _ _ _ hfind]
        simp [List.find?]
  · intro c c' cb1 cb2 hadd hcid htype
    by_cases hdup : (componentsGet c.components cb1.custom_id cb1.type).isSome = true
    · simp only [add_component_callback] at hadd
      rw [if_pos hdup] at hadd
      exact Except.noConfusion hadd
    · simp only [add_component_callback] at hadd
      rw [if_neg hdup] at hadd
      injection hadd with hc'
      subst hc'
      have hfind : componentsGet c.components cb1.custom_id cb1.type = none := by
        cases hcg : componentsGet c.components cb1.custom_id cb1.type with
        | none => rfl
        | some v => exact absurd (by rw [hcg]; rfl) hdup
      simp only [componentsGet] at hfind
      have hone : componentsGet (c.components ++ [cb1]) cb2.custom_id cb2.type =
          some cb1 := by
        simp only [componentsGet, hcid, htype]
        rw [find?_append_none _ _ _ hfind]
        simp [List.find?]
      constructor
      · simp only [add_component_callback]
        rw [if_pos (by rw [hone]; rfl)]
      · exact hone
  · intro c c' m1 m2 hadd hcid
    by_cases hdup : (modalsGet c.modals m1.custom_id).isSome = true
    · simp only [add_modal_callback] at hadd
      rw [if_pos hdup] at hadd
      exact Except.noConfusion hadd
    · simp only [add_modal_callback] at hadd
      rw [if_neg hdup] at hadd
      injection hadd with hc'
      subst hc'
      have hfind : modalsGet c.modals m1.custom_id = none := by
        cases hcg : modalsGet c.modals m1.custom_id with
        | none => rfl
        | some v => exact absurd (by rw [hcg]; rfl) hdup
      simp only [modalsGet] at hfind
      have hone : modalsGet (c.modals ++ [m1]) m2.custom_id = some m1 := by
        simp only [modalsGet, hcid]
        rw [find?_append_none _ _ _ hfind]
        simp [List.find?]
      constructor
      · simp only [add_modal_callback]
        rw [if_pos (by rw [hone]; rfl)]
      · exact hone

/-- Witness for C9: registering the Button component `btn1` twice fails the
second time and the registry still resolves `btn1` to the first callback. -/
theorem C9_witness :
    add_component_callback
        { auto_defer := { enabled := false, timeout := 1, ephemeral := false }
          commands := ([] : List (InteractionCommand PyType))
          modals := []
          components := [{ custom_id := "btn1", type := ComponentType.Button, cbId := 2 }] }
        { custom_id := "btn1", type := ComponentType.Button, cbId := 3 } =
      Except.error "component with custom_id btn1 already exists" ∧
    componentsGet [{ custom_id := "btn1", type := ComponentType.Button, cbId := 2 }]
        "btn1" ComponentType.Button =
      some { custom_id := "btn1", type := ComponentType.Button, cbId := 2 } := by
  have h := (@C9_duplicate_registration PyType).2.1
    { auto_defer := { enabled := false, timeout := 1, ephemeral := false }
      commands := [], modals := [], components := [] }
    { auto_defer := { enabled := false, timeout := 1, ephemeral := false }
      commands := [], modals := []
      components := [{ custom_id := "btn1", type := ComponentType.Button, cbId := 2 }] }
    { custom_id := "btn1", type := ComponentType.Button, cbId := 2 }
    { custom_id := "btn1", type := ComponentType.Button, cbId := 3 }
    (by decide) rfl rfl
  simpa using h

/-- C4 counterexample: for the declared `int` parameter `count` supplied with
the uncoercible option value `"abc"`, the kwargs bind `count` to the option
object itself, not to the raw value `"abc"` — refuting the claim that a
failed coercion passes the raw value through. -/
theorem C4_counterexample :
    buildKwargs pyCast [("count", PyType.intT)]
        [{ name := "count", value := Value.vStr "abc", focused := false }] =
      [("count",
        Arg.optionObj { name := "count", value := Value.vStr "abc", focused := false })] ∧
    Arg.optionObj { name := "count", value := Value.vStr "abc", focused := false } ≠
      Arg.val (Value.vStr "abc") := by
  decide

/-- C4 (amended): for a Command handler, keyword arguments are built by
intersecting the declared parameter names with the supplied options by name:
a declared parameter with no matching option is simply omitted (not an
error); a present option whose value coerces is bound to the coerced value;
and a present option whose value fails to coerce does not fail the request
but is passed through as the option object itself rather than as its raw
value. -/
theorem C4_kwargs_intersection {Ty : Type} (coerce : Ty → Value → Option Value)
    (anns : List (String × Ty)) (opts : List OptionData)
    (argument : String) (ty : Ty) :
    (opts.find? (fun o => decide (o.name = argument)) = none →
      ∀ a, (argument, a) ∉ buildKwargs coerce anns opts) ∧
    (∀ opt v, (argument, ty) ∈ anns →
      ¬ (argument = "self" ∨ argument = "ctx" ∨ argument = "context") →
      opts.find? (fun o => decide (o.name = argument)) = some opt →
      coerce ty opt.value = some v →
      (argument, Arg.val v) ∈ buildKwargs coerce anns opts) ∧
    (∀ opt, (argument, ty) ∈ anns →
      ¬ (argument = "self" ∨ argument = "ctx" ∨ argument = "context") →
      opts.find? (fun o => decide (o.name = argument)) = some opt →
      coerce ty opt.value = none →
      (argument, Arg.optionObj opt) ∈ buildKwargs coerce anns opts) := by
  have hchar := buildKwargs_eq_filterMap coerce anns opts
  refine ⟨?_, ?_, ?_⟩
  · intro hnone a hmem
    rw [hchar] at hmem
    rcases List.mem_filterMap.mp hmem with ⟨⟨b, tb⟩, hb, hstep⟩
    by_cases hskip : b = "self" ∨ b = "ctx" ∨ b = "context"
    · rw [if_pos hskip] at hstep
      exact Option.noConfusion hstep
    · rw [if_neg hskip] at hstep
      cases hfo : opts.find? (fun o => decide (o.name = b)) with
      | none =>
        rw [hfo] at hstep
        exact Option.noConfusion hstep
      | some opt =>
        rw [hfo] at hstep
        simp only [Option.map_some'] at hstep
        injection hstep with hpair
        have hba : b = argument := congrArg Prod.fst hpair
        rw [hba] at hfo
        rw [hnone] at hfo
        exact Option.noConfusion hfo
  · intro opt v hmem hskip hfo hco
    rw [hchar]
    refine List.mem_filterMap.mpr ⟨(argument, ty), hmem, ?_⟩
    rw [if_neg hskip, hfo]
    simp [hco]
  · intro opt hmem hskip hfo hco
    rw [hchar]
    refine List.mem_filterMap.mpr ⟨(argument, ty), hmem, ?_⟩
    rw [if_neg hskip, hfo]
    simp [hco]

/-- Witness for C4: the coercible option `count = "5"` is bound to the
coerced integer 5, and the undeclared-by-options parameter `missing` is
omitted. -/
theorem C4_witness :
    ("count", Arg.val (Value.vInt 5)) ∈
      buildKwargs pyCast [("ctx", PyType.strT), ("count", PyType.intT)]
        [{ name := "count", value := Value.vStr "5", focused := false }] ∧
    ∀ a, ("missing", a) ∉
      buildKwargs pyCast [("ctx", PyType.strT), ("count", PyType.intT)]
        [{ name := "count", value := Value.vStr "5", focused := false }] := by
  constructor
  · exact (C4_kwargs_intersection pyCast
      [("ctx", PyType.strT), ("count", PyType.intT)]
      [{ name := "count", value := Value.vStr "5", focused := false }]
      "count" PyType.intT).2.1
      { name := "count", value := Value.vStr "5", focused := false } (Value.vInt 5)
      (by decide) (by decide) (by decide) (by decide)
  · intro a
    exact (C4_kwargs_intersection pyCast
      [("ctx", PyType.strT), ("count", PyType.intT)]
      [{ name := "count", value := Value.vStr "5", focused := false }]
      "missing" PyType.intT).1 (by decide) a

end Snowfin
